import Mathlib

/-!
Verification of the membership subscription and billing state machine of the
Django-RestFramework marketplace backend, shallowly embedded in Lean 4.

Sources embedded:
* `src/api/membership/models.py` — `Membership` (`subscribe`, `is_downgrade`,
  `get_stripe_plan`, `get_project_price_detailed`, `get_project_posting_price`)
  and `MembershipHistory`.
* `src/api/auth/models.py` — `User.can_downgrade_membership`,
  `User.stripe_subscribe`, and the user fields the state machine mutates.

Monetary values (Python `Decimal` on ORM `MoneyField`s) are embedded as `ℚ`;
nullable columns as `Option`; `datetime.date` as a year/month/day record.
Remote calls to the Stripe gateway are embedded by passing in a `Gateway`
value describing the remote plan list and the outcome of the remote
subscription-creation call, and every run of `subscribe` additionally yields
the list of events it performs (transaction begin/commit/rollback, remote
calls, local writes) so that ordering properties can be stated.
A Python expression that raises (`None < Decimal`, subscripting `None`) is
embedded as an error value (`Option`/`Except`), never as a default.
-/

namespace Api

/-- `datetime.date`: a plain calendar date. -/
structure Date where
  year : Nat
  month : Nat
  day : Nat
deriving DecidableEq, Repr

/-- A remote plan as returned by `stripe.Plan.list()`: the fields the code
reads (`plan["id"]`, `plan["name"]`). -/
structure StripePlan where
  id : String
  name : String
deriving DecidableEq, Repr

/-- A remote subscription as returned by `stripe.Subscription.create` : the
field the code reads (`subscription["id"]`). -/
structure StripeSubscription where
  id : String
deriving DecidableEq, Repr

/-- A remote request issued to the payment gateway.  `subscriptionCreate`
records exactly the arguments the source passes to
`stripe.Subscription.create` (customer token, plan id, and the metadata
keyword if any). -/
inductive GatewayCall where
  | planList
  | subscriptionCreate (customer : String) (planId : String)
      (metadata : Option (List (String × String)))
deriving DecidableEq, Repr

/-- The behaviour of the remote gateway for one run: the plan list that
`stripe.Plan.list()` would return (when it succeeds) and the outcome of
`stripe.Subscription.create`. -/
structure Gateway where
  plan_list_ok : Bool
  plans : List StripePlan
  create_result : Except String StripeSubscription
deriving Repr

/-- `membership.Membership` (src/api/membership/models.py): the fields the
claims touch.  `MoneyField(null=True)` columns are `Option ℚ`. -/
structure Membership where
  uuid : String
  name : String
  concierge_price : Option ℚ
  price_month : Option ℚ
  profile_type : String
  stripe_monthly_product_name : Option String
  is_initial : Bool
  is_active : Bool
deriving DecidableEq, Repr

/-- `auth.User` (src/api/auth/models.py): the subscription-state fields owned
by the user entity.  `package_active` embeds the `is_active` flags of the
`package_set` of the user's freelancer profile (the related rows that a
downgrade deactivates). -/
structure User where
  id : Nat
  profile_type : String
  current_membership : Option Membership
  last_membership_downgrade_date : Option Date
  stripe_customer_token : String
  package_active : List Bool
deriving DecidableEq, Repr

/-- `membership.MembershipHistory` row (src/api/membership/models.py):
append-only ledger of subscription transitions.  `created_at`
(`auto_now_add`) is embedded as a monotone tick from the database clock. -/
structure HistoryRow where
  user_id : Nat
  membership_uuid : String
  created_at : Nat
  stripe_subscription_id : Option String
  stripe_plan_id : Option String
deriving DecidableEq, Repr

/-- The local database state `subscribe` reads and writes: the user row, the
ledger, and the clock that stamps `created_at`. -/
structure DBState where
  user : User
  history : List HistoryRow
  clock : Nat
deriving DecidableEq, Repr

/-- `Membership.is_downgrade` (src/api/membership/models.py lines 87–97).
`none` is the `TypeError` Python raises when the final branch compares a
`None` `price_month` with `<`. -/
def Membership.is_downgrade (self : Membership) (user : User) : Option Bool :=
  match user.current_membership with
  | none => some false
  | some current_membership =>
    if current_membership.is_initial then some false
    else if self.is_initial then some true
    else
      match self.price_month, current_membership.price_month with
      | some p, some q => some (decide (p < q))
      | _, _ => none

/-- `Membership.get_stripe_plan` (lines 99–108): `None` for initial tiers,
otherwise the first listed plan whose `name` is in the one-element tuple
`(self.stripe_monthly_product_name,)`; when no plan matches it logs an error
and falls through, returning `None`. -/
def Membership.get_stripe_plan (self : Membership) (plans : List StripePlan) :
    Option StripePlan :=
  if self.is_initial then none
  else plans.find? (fun plan => some plan.name = self.stripe_monthly_product_name)

/-- `User.stripe_subscribe` (src/api/auth/models.py lines 734–739).  The
request actually sent to `stripe.Subscription.create` names only
`customer=self.stripe_customer_token` and `items=[{"plan": stripe_plan_id}]`:
the `metadata` parameter is accepted but never forwarded, so the recorded
call carries `none` for metadata regardless of the argument. -/
def User.stripe_subscribe (self : User) (stripe_plan_id : String)
    (_metadata : Option (List (String × String))) (gw : Gateway) :
    Except String StripeSubscription × GatewayCall :=
  (gw.create_result,
   GatewayCall.subscriptionCreate self.stripe_customer_token stripe_plan_id none)

/-- One observable step of a `subscribe` run.  `txBegin` is the transaction
the `@transaction.atomic` decorator opens on entry; it closes with
`txCommit` on normal return and `txRollback` when an exception escapes. -/
inductive Event where
  | txBegin
  | remoteCall (call : GatewayCall)
  | userSave
  | historyInsert
  | txCommit
  | txRollback
deriving DecidableEq, Repr

/-- The distinct error kinds with which `subscribe` can raise. -/
inductive SubscribeError where
  /-- `TypeError`: `is_downgrade` compared a `None` `price_month`. -/
  | priceNone
  /-- `stripe.Plan.list()` itself failed remotely. -/
  | planListFailed
  /-- `get_stripe_plan` returned `None` and `stripe_plan["id"]` raised
  `TypeError` — the fatal configuration error for a missing plan. -/
  | planNotFound
  /-- `stripe.Subscription.create` failed; carries the gateway's message. -/
  | gatewayError (msg : String)
deriving DecidableEq, Repr

/-- The user row as written by the downgrade branch of `subscribe`:
`last_membership_downgrade_date = date.today()`, and for freelancers every
row of the profile's `package_set` gets `is_active=False`. -/
def User.applyDowngrade (self : User) (today : Date) : User :=
  { self with
    last_membership_downgrade_date := some today
    package_active :=
      if self.profile_type = "freelancer" then
        self.package_active.map (fun _ => false)
      else self.package_active }

/-- `Membership.subscribe` (src/api/membership/models.py lines 52–85),
embedded as a function from the gateway behaviour, today's date and the
database state to the outcome (the new state, or the raised error) paired
with the event trace of the run.  The whole body runs under
`@transaction.atomic`, so every trace opens with `txBegin` and closes with
`txCommit` (normal return) or `txRollback` (escaping exception, which
discards the transaction's local writes). -/
def Membership.subscribe (self : Membership) (gw : Gateway) (today : Date)
    (st : DBState) : Except SubscribeError DBState × List Event :=
  match self.is_downgrade st.user with
  | none =>
    (Except.error SubscribeError.priceNone, [Event.txBegin, Event.txRollback])
  | some isDown =>
    if isDown then
      let user1 := { st.user.applyDowngrade today with current_membership := some self }
      let row : HistoryRow :=
        ⟨st.user.id, self.uuid, st.clock, none, none⟩
      (Except.ok ⟨user1, st.history ++ [row], st.clock + 1⟩,
       [Event.txBegin, Event.userSave, Event.historyInsert, Event.txCommit])
    else if self.is_initial then
      -- `elif not self.is_initial` fails: no stripe subscription on initial
      let user1 := { st.user with current_membership := some self }
      let row : HistoryRow :=
        ⟨st.user.id, self.uuid, st.clock, none, none⟩
      (Except.ok ⟨user1, st.history ++ [row], st.clock + 1⟩,
       [Event.txBegin, Event.userSave, Event.historyInsert, Event.txCommit])
    else
      -- stripe_plan = self.get_stripe_plan(), which calls stripe.Plan.list()
      if gw.plan_list_ok then
        match self.get_stripe_plan gw.plans with
        | none =>
          (Except.error SubscribeError.planNotFound,
           [Event.txBegin, Event.remoteCall GatewayCall.planList, Event.txRollback])
        | some stripe_plan =>
          let stripe_plan_id := stripe_plan.id
          let metadata := some [("object_type", "membership"), ("uuid", self.uuid)]
          let created := st.user.stripe_subscribe stripe_plan_id metadata gw
          match created.1 with
          | Except.error msg =>
            (Except.error (SubscribeError.gatewayError msg),
             [Event.txBegin, Event.remoteCall GatewayCall.planList,
              Event.remoteCall created.2, Event.txRollback])
          | Except.ok stripe_subscription =>
            let user1 := { st.user with current_membership := some self }
            let row : HistoryRow :=
              ⟨st.user.id, self.uuid, st.clock,
               some stripe_subscription.id, some stripe_plan_id⟩
            (Except.ok ⟨user1, st.history ++ [row], st.clock + 1⟩,
             [Event.txBegin, Event.remoteCall GatewayCall.planList,
              Event.remoteCall created.2, Event.userSave, Event.historyInsert,
              Event.txCommit])
      else
        (Except.error SubscribeError.planListFailed,
         [Event.txBegin, Event.remoteCall GatewayCall.planList, Event.txRollback])

/-- Whether an event is a remote call to the payment gateway. -/
def Event.isRemote : Event → Bool
  | Event.remoteCall _ => true
  | _ => false

/-- Number of remote gateway calls in a trace. -/
def remoteCount (tr : List Event) : Nat :=
  (tr.filter Event.isRemote).length

/-- Scan of a trace tracking whether a database transaction is open; `true`
iff some remote call happens while a transaction is open. -/
def txOpenDuringRemoteAux : Bool → List Event → Bool
  | _, [] => false
  | _, Event.txBegin :: rest => txOpenDuringRemoteAux true rest
  | _, Event.txCommit :: rest => txOpenDuringRemoteAux false rest
  | _, Event.txRollback :: rest => txOpenDuringRemoteAux false rest
  | o, Event.remoteCall _ :: rest => o || txOpenDuringRemoteAux o rest
  | o, _ :: rest => txOpenDuringRemoteAux o rest

/-- `true` iff the trace performs a remote gateway call while a database
transaction is held open. -/
def txOpenDuringRemote (tr : List Event) : Bool :=
  txOpenDuringRemoteAux false tr

/-- Scan of a trace: `true` iff some remote call happens after the
transactional commit. -/
def remoteAfterCommitAux : Bool → List Event → Bool
  | _, [] => false
  | _, Event.txCommit :: rest => remoteAfterCommitAux true rest
  | o, Event.remoteCall _ :: rest => o || remoteAfterCommitAux o rest
  | o, _ :: rest => remoteAfterCommitAux o rest

/-- `true` iff the trace performs a remote gateway call after `txCommit`. -/
def remoteAfterCommit (tr : List Event) : Bool :=
  remoteAfterCommitAux false tr

/-- `User.can_downgrade_membership` (src/api/auth/models.py lines 294–306):
downgrade is allowed at most once per calendar month.  `date.today()` is
passed in as `today`. -/
def User.can_downgrade_membership (self : User) (today : Date) : Bool :=
  match self.last_membership_downgrade_date with
  | none => true
  | some d => decide (d.year ≠ today.year) || decide (d.month ≠ today.month)

/-- Rounding of a rational to the nearest integer, ties to even: the
behaviour of Python's `round` on `Decimal` values (default context
`ROUND_HALF_EVEN`). -/
def roundHalfEvenInt (q : ℚ) : ℤ :=
  let n : ℤ := q.num
  let d : ℤ := (q.den : ℤ)
  let f : ℤ := Int.fdiv n d
  let rem : ℤ := n - f * d
  if 2 * rem < d then f
  else if d < 2 * rem then f + 1
  else if f % 2 = 0 then f else f + 1

/-- `round(x, ndigits=2)` on a `Decimal`: round to two decimal places, ties
to even. -/
def round2 (q : ℚ) : ℚ :=
  (roundHalfEvenInt (q * 100) : ℚ) / 100

/-- Modelled from the spec: the `PaymentFee` fee-schedule record
(`payment.models.PaymentFee`, whose module is not among the sources).  §3 of
the spec: "a singleton/current record providing `project_posting_price`,
`tax_percentage`, `stripe_percentage`"; `PaymentFee.get_current_fees()` reads
the current record, which is passed in explicitly here.
`project_posting_price` is nullable (the code defaults it with `or
Decimal(0.0)`). -/
structure PaymentFee where
  project_posting_price : Option ℚ
  tax_percentage : ℚ
  stripe_percentage : ℚ
deriving DecidableEq, Repr

/-- The dictionary returned by `get_project_price_detailed`. -/
structure PriceDetail where
  project_price : ℚ
  concierge_price : ℚ
  vat_price : ℚ
  stripe_fee : ℚ
deriving DecidableEq, Repr

/-- `Membership.get_project_price_detailed` (src/api/membership/models.py
lines 110–141).  `payment_fee` is the record `PaymentFee.get_current_fees()`
returns.  Python's `x or Decimal(0.0)` on a nullable money field is
`Option.getD 0` (a stored `0` is falsy in Python but the fallback is the
same value `0`). -/
def Membership.get_project_price_detailed (self : Membership)
    (payment_fee : PaymentFee) (has_concierge_service add_stripe_fee : Bool) :
    PriceDetail :=
  let project_price : ℚ := payment_fee.project_posting_price.getD 0
  let concierge_price : ℚ :=
    if has_concierge_service then self.concierge_price.getD 0 else 0
  let subtotal : ℚ := project_price + concierge_price
  let vat_price : ℚ := subtotal * payment_fee.tax_percentage / 100
  let stripe_fee : ℚ :=
    if add_stripe_fee then subtotal * payment_fee.stripe_percentage / 100 else 0
  { project_price := round2 project_price
    concierge_price := round2 concierge_price
    vat_price := round2 vat_price
    stripe_fee := round2 stripe_fee }

/-- `Membership.get_project_posting_price` (lines 143–149): the sum of the
values of the detailed price dictionary. -/
def Membership.get_project_posting_price (self : Membership)
    (payment_fee : PaymentFee) (has_concierge_service add_stripe_fee : Bool) :
    ℚ :=
  let d := self.get_project_price_detailed payment_fee has_concierge_service
    add_stripe_fee
  d.project_price + d.concierge_price + d.vat_price + d.stripe_fee

/-! ### Concrete fixtures used to instantiate the theorems -/

/-- The free tier of the catalog (`is_initial=True`). -/
def tierFree : Membership :=
  ⟨"uuid-free", "Free", none, some 0, "freelancer", none, true, true⟩

/-- A paid tier at 10 per month. -/
def tierSilver : Membership :=
  ⟨"uuid-silver", "Silver", some 50, some 10, "freelancer",
   some "SilverMonthly", false, true⟩

/-- A paid tier at 20 per month. -/
def tierGold : Membership :=
  ⟨"uuid-gold", "Gold", some 80, some 20, "freelancer",
   some "GoldMonthly", false, true⟩

/-- A misconfigured paid tier whose `price_month` is NULL. -/
def tierNoPrice : Membership :=
  ⟨"uuid-noprice", "NoPrice", none, none, "freelancer",
   some "NoPriceMonthly", false, true⟩

/-- A user with no membership yet. -/
def userFresh : User := ⟨1, "freelancer", none, none, "cus_1", [true, true]⟩

/-- A user currently on the free (initial) tier. -/
def userOnFree : User := ⟨2, "freelancer", some tierFree, none, "cus_2", []⟩

/-- A freelancer currently on the Silver tier with two active packages. -/
def userOnSilver : User :=
  ⟨3, "freelancer", some tierSilver, none, "cus_3", [true, true]⟩

/-- A user currently on the Gold tier. -/
def userOnGold : User := ⟨4, "freelancer", some tierGold, none, "cus_4", [true]⟩

/-- A user who last downgraded on 2024-03-15. -/
def userThrottled : User :=
  ⟨5, "client", some tierSilver, some ⟨2024, 3, 15⟩, "cus_5", []⟩

/-- A healthy gateway knowing both paid plans. -/
def gwOk : Gateway :=
  ⟨true, [⟨"plan_silver", "SilverMonthly"⟩, ⟨"plan_gold", "GoldMonthly"⟩],
   Except.ok ⟨"sub_1"⟩⟩

/-- A gateway whose `Subscription.create` fails remotely. -/
def gwCreateFails : Gateway :=
  ⟨true, [⟨"plan_silver", "SilverMonthly"⟩, ⟨"plan_gold", "GoldMonthly"⟩],
   Except.error "card declined"⟩

/-- A date used as `date.today()` in concrete runs. -/
def dToday : Date := ⟨2026, 10, 12⟩

/-- Database state: `userOnSilver`, one prior ledger row, clock at 1. -/
def stSilver : DBState :=
  ⟨userOnSilver, [⟨3, "uuid-free", 0, none, none⟩], 1⟩

/-- The example fee schedule of the spec (§8): posting price 100.00, VAT
21%, processor fee 3%. -/
def feeExample : PaymentFee := ⟨some 100, 21, 3⟩

/-! ### Claims -/

/-- C1: `is_downgrade(U, T)` returns false when `U.current_membership` is
null or is the initial tier; otherwise true when `T.is_initial`; otherwise
true iff `T.price_month < current.price_month` (strict, so equal prices are
not a downgrade).  The price comparison clause is stated under the
precondition that both prices are present (C10 settles the NULL case). -/
theorem is_downgrade_classification :
    (∀ (m : Membership) (u : User),
      u.current_membership = none → m.is_downgrade u = some false) ∧
    (∀ (m : Membership) (u : User) (c : Membership),
      u.current_membership = some c → c.is_initial = true →
      m.is_downgrade u = some false) ∧
    (∀ (m : Membership) (u : User) (c : Membership),
      u.current_membership = some c → c.is_initial = false →
      m.is_initial = true → m.is_downgrade u = some true) ∧
    (∀ (m : Membership) (u : User) (c : Membership) (p q : ℚ),
      u.current_membership = some c → c.is_initial = false →
      m.is_initial = false → m.price_month = some p → c.price_month = some q →
      (m.is_downgrade u = some true ↔ p < q)) := by
  refine ⟨?_, ?_, ?_, ?_⟩
  · intro m u h
    simp [Membership.is_downgrade, h]
  · intro m u c hc hinit
    simp [Membership.is_downgrade, hc, hinit]
  · intro m u c hc hcinit hminit
    simp [Membership.is_downgrade, hc, hcinit, hminit]
  · intro m u c p q hc hcinit hminit hp hq
    simp [Membership.is_downgrade, hc, hcinit, hminit, hp, hq]

/-- C1 witness: the four clauses evaluated on concrete members of the
catalog: a fresh user, a user on the free tier, a move to the free tier,
and a paid-to-paid comparison (Gold at 20 to Silver at 10 is a downgrade
since 10 < 20). -/
theorem is_downgrade_classification_witness :
    tierGold.is_downgrade userFresh = some false ∧
    tierGold.is_downgrade userOnFree = some false ∧
    tierFree.is_downgrade userOnSilver = some true ∧
    (tierSilver.is_downgrade userOnGold = some true ↔ (10 : ℚ) < 20) :=
  ⟨is_downgrade_classification.1 tierGold userFresh rfl,
   is_downgrade_classification.2.1 tierGold userOnFree tierFree rfl rfl,
   is_downgrade_classification.2.2.1 tierFree userOnSilver tierSilver rfl rfl rfl,
   is_downgrade_classification.2.2.2 tierSilver userOnGold tierGold 10 20
     rfl rfl rfl rfl rfl⟩

/-- C10: on the paid-to-paid branch the price comparison is a Python `<` on
a nullable column: when either `price_month` is NULL the comparison raises
`TypeError` (embedded as `none`); with both prices present `is_downgrade`
is total. -/
theorem is_downgrade_price_none_cases :
    (∀ (m : Membership) (u : User) (c : Membership),
      u.current_membership = some c → c.is_initial = false →
      m.is_initial = false →
      (m.price_month = none ∨ c.price_month = none) →
      m.is_downgrade u = none) ∧
    (∀ (m : Membership) (u : User) (c : Membership),
      u.current_membership = some c → c.is_initial = false →
      m.is_initial = false →
      m.price_month.isSome → c.price_month.isSome →
      (m.is_downgrade u).isSome) := by
  constructor
  · intro m u c hc hcinit hminit hnull
    rcases hnull with h | h <;>
      · simp only [Membership.is_downgrade, hc, hcinit, hminit]
        rcases hm : m.price_month with _ | p <;>
          rcases hcm : c.price_month with _ | q <;>
            simp_all
  · intro m u c hc hcinit hminit hm hcm
    rcases Option.isSome_iff_exists.mp hm with ⟨p, hp⟩
    rcases Option.isSome_iff_exists.mp hcm with ⟨q, hq⟩
    simp [Membership.is_downgrade, hc, hcinit, hminit, hp, hq]

/-- C10 witness: subscribing the Gold user to the NULL-priced tier raises
(`none`); to Silver it is defined. -/
theorem is_downgrade_price_none_cases_witness :
    tierNoPrice.is_downgrade userOnGold = none ∧
    (tierSilver.is_downgrade userOnGold).isSome :=
  ⟨is_downgrade_price_none_cases.1 tierNoPrice userOnGold tierGold
     rfl rfl rfl (Or.inl rfl),
   is_downgrade_price_none_cases.2 tierSilver userOnGold tierGold
     rfl rfl rfl rfl rfl⟩

/-- C9: `can_downgrade_membership` is true iff the last downgrade date is
unset or differs from today in year or month (at most one downgrade per
calendar month); and on the spec's example (last downgrade 2024-03-15) it
is false on 2024-03-20 and true on 2024-04-01. -/
theorem can_downgrade_membership_spec :
    (∀ (u : User) (today : Date),
      u.can_downgrade_membership today = true ↔
        u.last_membership_downgrade_date = none ∨
        ∃ d, u.last_membership_downgrade_date = some d ∧
          (d.year ≠ today.year ∨ d.month ≠ today.month)) ∧
    userThrottled.can_downgrade_membership ⟨2024, 3, 20⟩ = false ∧
    userThrottled.can_downgrade_membership ⟨2024, 4, 1⟩ = true := by
  refine ⟨?_, by decide, by decide⟩
  intro u today
  rcases h : u.last_membership_downgrade_date with _ | d <;>
    simp [User.can_downgrade_membership, h]

/-- Rounding an integer-valued rational is the identity. -/
theorem roundHalfEvenInt_intCast (z : ℤ) : roundHalfEvenInt (z : ℚ) = z := by
  simp [roundHalfEvenInt]

/-- Evaluation rule for `round2` when the scaled value is an integer. -/
theorem round2_of_eq_intCast (q : ℚ) (z : ℤ) (h : q * 100 = (z : ℚ)) :
    round2 q = (z : ℚ) / 100 := by
  rw [round2, h, roundHalfEvenInt_intCast]

/-- C8: the four components of `get_project_price_detailed` follow the
claimed formulas (base posting price defaulting to zero, concierge add-on
gated by its flag, VAT and processor fee as percentages of the subtotal,
everything rounded to 2 decimal places); the spec's worked example
(posting 100.00, VAT 21%, processor 3%, concierge 50.00, both flags on)
yields 100.00 / 50.00 / 31.50 / 4.50 with total 186.00; and with both
flags off the concierge and processor components are zero. -/
theorem project_price_detail_spec :
    (∀ (m : Membership) (fee : PaymentFee) (hc af : Bool),
      (m.get_project_price_detailed fee hc af).project_price =
        round2 (fee.project_posting_price.getD 0)) ∧
    (∀ (m : Membership) (fee : PaymentFee) (hc af : Bool),
      (m.get_project_price_detailed fee hc af).concierge_price =
        round2 (if hc then m.concierge_price.getD 0 else 0)) ∧
    (∀ (m : Membership) (fee : PaymentFee) (hc af : Bool),
      (m.get_project_price_detailed fee hc af).vat_price =
        round2 ((fee.project_posting_price.getD 0 +
          (if hc then m.concierge_price.getD 0 else 0)) *
            fee.tax_percentage / 100)) ∧
    (∀ (m : Membership) (fee : PaymentFee) (hc af : Bool),
      (m.get_project_price_detailed fee hc af).stripe_fee =
        if af then
          round2 ((fee.project_posting_price.getD 0 +
            (if hc then m.concierge_price.getD 0 else 0)) *
              fee.stripe_percentage / 100)
        else 0) ∧
    (tierSilver.get_project_price_detailed feeExample true true =
      ⟨100, 50, 63 / 2, 9 / 2⟩ ∧
     tierSilver.get_project_posting_price feeExample true true = 186) ∧
    (∀ (m : Membership) (fee : PaymentFee),
      (m.get_project_price_detailed fee false false).concierge_price = 0 ∧
      (m.get_project_price_detailed fee false false).stripe_fee = 0) := by
  have hz : round2 0 = 0 := by
    rw [round2_of_eq_intCast 0 0 (by norm_num)]
    norm_num
  have e1 : round2 (100 : ℚ) = 100 := by
    rw [round2_of_eq_intCast 100 10000 (by norm_num)]
    norm_num
  have e2 : round2 (50 : ℚ) = 50 := by
    rw [round2_of_eq_intCast 50 5000 (by norm_num)]
    norm_num
  have e3 : round2 ((100 + 50) * 21 / 100 : ℚ) = 63 / 2 := by
    rw [round2_of_eq_intCast ((100 + 50) * 21 / 100) 3150 (by norm_num)]
    norm_num
  have e4 : round2 ((100 + 50) * 3 / 100 : ℚ) = 9 / 2 := by
    rw [round2_of_eq_intCast ((100 + 50) * 3 / 100) 450 (by norm_num)]
    norm_num
  have hdet : tierSilver.get_project_price_detailed feeExample true true =
      ⟨100, 50, 63 / 2, 9 / 2⟩ := by
    simp only [Membership.get_project_price_detailed, tierSilver, feeExample,
      Option.getD_some, if_true]
    rw [e1, e2, e3, e4]
  refine ⟨?_, ?_, ?_, ?_, ⟨hdet, ?_⟩, ?_⟩
  · intro m fee hc af
    rfl
  · intro m fee hc af
    cases hc <;> rfl
  · intro m fee hc af
    cases hc <;> rfl
  · intro m fee hc af
    cases af <;> cases hc <;> simp [Membership.get_project_price_detailed, hz]
  · rw [Membership.get_project_posting_price]
    rw [hdet]
    norm_num
  · intro m fee
    exact ⟨hz, hz⟩

/-- C4: `subscribe` on a target tier with `is_initial = true` never issues a
remote gateway call: neither a plan lookup nor a subscription creation
appears in the trace. -/
theorem subscribe_initial_tier_no_remote_call :
    ∀ (m : Membership) (gw : Gateway) (today : Date) (st : DBState),
      m.is_initial = true → remoteCount (m.subscribe gw today st).2 = 0 := by
  intro m gw today st h
  rcases hd : m.is_downgrade st.user with _ | b
  · simp [Membership.subscribe, hd, remoteCount, Event.isRemote]
  · cases b
    · simp [Membership.subscribe, hd, h, remoteCount, Event.isRemote]
    · simp [Membership.subscribe, hd, remoteCount, Event.isRemote]

/-- C4 witness: assigning the initial (free) tier to the Silver user makes
no remote call. -/
theorem subscribe_initial_tier_no_remote_call_witness :
    remoteCount (tierFree.subscribe gwOk dToday stSilver).2 = 0 :=
  subscribe_initial_tier_no_remote_call tierFree gwOk dToday stSilver rfl

/-- C2: on a downgrade, `subscribe` stamps
`last_membership_downgrade_date = today`, deactivates every posted package
when the user is a freelancer, performs no gateway call, and appends one
ledger row whose `stripe_subscription_id` and `stripe_plan_id` are both
null. -/
theorem subscribe_downgrade_effects :
    ∀ (m : Membership) (gw : Gateway) (today : Date) (st : DBState),
      m.is_downgrade st.user = some true →
      ∃ out, (m.subscribe gw today st).1 = Except.ok out ∧
        out.user.last_membership_downgrade_date = some today ∧
        (st.user.profile_type = "freelancer" →
          ∀ b ∈ out.user.package_active, b = false) ∧
        remoteCount (m.subscribe gw today st).2 = 0 ∧
        out.history = st.history ++ [⟨st.user.id, m.uuid, st.clock, none, none⟩] := by
  intro m gw today st h
  refine ⟨⟨{ st.user.applyDowngrade today with current_membership := some m },
    st.history ++ [⟨st.user.id, m.uuid, st.clock, none, none⟩], st.clock + 1⟩,
    ?_, ?_, ?_, ?_, ?_⟩
  · simp [Membership.subscribe, h]
  · simp [User.applyDowngrade]
  · intro hp b hb
    simp [User.applyDowngrade, hp] at hb
    exact hb.2
  · simp [Membership.subscribe, h, remoteCount, Event.isRemote]
  · rfl

/-- C2 witness: the Silver freelancer downgrading to the free tier. -/
theorem subscribe_downgrade_effects_witness :
    ∃ out, (tierFree.subscribe gwOk dToday stSilver).1 = Except.ok out ∧
      out.user.last_membership_downgrade_date = some dToday ∧
      (stSilver.user.profile_type = "freelancer" →
        ∀ b ∈ out.user.package_active, b = false) ∧
      remoteCount (tierFree.subscribe gwOk dToday stSilver).2 = 0 ∧
      out.history = stSilver.history ++
        [⟨stSilver.user.id, tierFree.uuid, stSilver.clock, none, none⟩] :=
  subscribe_downgrade_effects tierFree gwOk dToday stSilver rfl

/-- C5: on the non-downgrade, non-initial path a failing remote
subscription-creation call propagates as a distinct gateway error; whenever
`subscribe` raises, the atomic transaction rolls back without having run
the user save or the ledger insert; and downgrades and initial assignments
never call the gateway at all. -/
theorem subscribe_gateway_failure_no_commit :
    (∀ (m : Membership) (gw : Gateway) (today : Date) (st : DBState)
        (p : StripePlan) (msg : String),
      m.is_downgrade st.user = some false → m.is_initial = false →
      gw.plan_list_ok = true → m.get_stripe_plan gw.plans = some p →
      gw.create_result = Except.error msg →
      (m.subscribe gw today st).1 =
        Except.error (SubscribeError.gatewayError msg)) ∧
    (∀ (m : Membership) (gw : Gateway) (today : Date) (st : DBState)
        (e : SubscribeError),
      (m.subscribe gw today st).1 = Except.error e →
      Event.userSave ∉ (m.subscribe gw today st).2 ∧
      Event.historyInsert ∉ (m.subscribe gw today st).2 ∧
      (m.subscribe gw today st).2.getLast? = some Event.txRollback) ∧
    (∀ (m : Membership) (gw : Gateway) (today : Date) (st : DBState),
      (m.is_downgrade st.user = some true ∨ m.is_initial = true) →
      remoteCount (m.subscribe gw today st).2 = 0) := by
  refine ⟨?_, ?_, ?_⟩
  · intro m gw today st p msg hd hini hpl hp hc
    simp [Membership.subscribe, hd, hini, hpl, hp, User.stripe_subscribe, hc]
  · intro m gw today st e herr
    rcases hd : m.is_downgrade st.user with _ | b
    · simp [Membership.subscribe, hd]
    · cases b
      · by_cases hini : m.is_initial
        · simp [Membership.subscribe, hd, hini] at herr
        · by_cases hpl : gw.plan_list_ok
          · rcases hp : m.get_stripe_plan gw.plans with _ | p
            · simp [Membership.subscribe, hd, hini, hpl, hp]
            · rcases hc : gw.create_result with msg | sub
              · simp [Membership.subscribe, hd, hini, hpl, hp,
                  User.stripe_subscribe, hc]
              · simp [Membership.subscribe, hd, hini, hpl, hp,
                  User.stripe_subscribe, hc] at herr
          · simp [Membership.subscribe, hd, hini, hpl]
      · simp [Membership.subscribe, hd] at herr
  · intro m gw today st h
    rcases h with h | h
    · simp [Membership.subscribe, h, remoteCount, Event.isRemote]
    · rcases hd : m.is_downgrade st.user with _ | b
      · simp [Membership.subscribe, hd, remoteCount, Event.isRemote]
      · cases b
        · simp [Membership.subscribe, hd, h, remoteCount, Event.isRemote]
        · simp [Membership.subscribe, hd, remoteCount, Event.isRemote]

/-- C5 witness: a declined card on the Silver-to-Gold upgrade surfaces the
gateway message, runs no local write, and rolls the transaction back; the
downgrade to the free tier performs no remote call. -/
theorem subscribe_gateway_failure_no_commit_witness :
    (tierGold.subscribe gwCreateFails dToday stSilver).1 =
      Except.error (SubscribeError.gatewayError "card declined") ∧
    Event.userSave ∉ (tierGold.subscribe gwCreateFails dToday stSilver).2 ∧
    Event.historyInsert ∉ (tierGold.subscribe gwCreateFails dToday stSilver).2 ∧
    (tierGold.subscribe gwCreateFails dToday stSilver).2.getLast? =
      some Event.txRollback ∧
    remoteCount (tierFree.subscribe gwCreateFails dToday stSilver).2 = 0 := by
  have h1 := subscribe_gateway_failure_no_commit.1 tierGold gwCreateFails dToday
    stSilver ⟨"plan_gold", "GoldMonthly"⟩ "card declined" rfl rfl rfl (by decide) rfl
  have h2 := subscribe_gateway_failure_no_commit.2.1 tierGold gwCreateFails dToday
    stSilver (SubscribeError.gatewayError "card declined") h1
  have h3 := subscribe_gateway_failure_no_commit.2.2 tierFree gwCreateFails dToday
    stSilver (Or.inl rfl)
  exact ⟨h1, h2.1, h2.2.1, h2.2.2, h3⟩

/-- C6: every successful `subscribe` appends exactly one ledger row, keyed
to the calling user and the target tier, with a `created_at` above every
prior row (the hypothesis is the clock well-formedness invariant that every
stored row was stamped before the current clock), and leaves
`current_membership` pointing at the target tier. -/
theorem subscribe_ok_appends_single_ledger_row :
    ∀ (m : Membership) (gw : Gateway) (today : Date) (st : DBState)
      (out : DBState),
      (∀ r ∈ st.history, r.created_at < st.clock) →
      (m.subscribe gw today st).1 = Except.ok out →
      ∃ row, out.history = st.history ++ [row] ∧
        row.user_id = st.user.id ∧ row.membership_uuid = m.uuid ∧
        out.user.current_membership = some m ∧
        ∀ r ∈ st.history, r.created_at < row.created_at := by
  intro m gw today st out hmono hok
  rcases hd : m.is_downgrade st.user with _ | b
  · simp [Membership.subscribe, hd] at hok
  · cases b
    · by_cases hini : m.is_initial = true
      · simp [Membership.subscribe, hd, hini] at hok
        subst hok
        exact ⟨⟨st.user.id, m.uuid, st.clock, none, none⟩, rfl, rfl, rfl, rfl,
          fun r hr => hmono r hr⟩
      · by_cases hpl : gw.plan_list_ok = true
        · rcases hp : m.get_stripe_plan gw.plans with _ | p
          · simp [Membership.subscribe, hd, hini, hpl, hp] at hok
          · rcases hc : gw.create_result with msg | sub
            · simp [Membership.subscribe, hd, hini, hpl, hp,
                User.stripe_subscribe, hc] at hok
            · simp [Membership.subscribe, hd, hini, hpl, hp,
                User.stripe_subscribe, hc] at hok
              subst hok
              exact ⟨⟨st.user.id, m.uuid, st.clock, some sub.id, some p.id⟩,
                rfl, rfl, rfl, rfl, fun r hr => hmono r hr⟩
        · simp [Membership.subscribe, hd, hini, hpl] at hok
    · simp [Membership.subscribe, hd] at hok
      subst hok
      exact ⟨⟨st.user.id, m.uuid, st.clock, none, none⟩, rfl, rfl, rfl, rfl,
        fun r hr => hmono r hr⟩

/-- C6 witness: the Silver-to-Gold upgrade against the healthy gateway,
starting from a one-row ledger stamped at clock 0 with the clock at 1. -/
theorem subscribe_ok_appends_single_ledger_row_witness :
    ∃ row,
      (⟨{ userOnSilver with current_membership := some tierGold },
        [⟨3, "uuid-free", 0, none, none⟩,
         ⟨3, "uuid-gold", 1, some "sub_1", some "plan_gold"⟩], 2⟩ :
          DBState).history = stSilver.history ++ [row] ∧
      row.user_id = stSilver.user.id ∧ row.membership_uuid = tierGold.uuid ∧
      (({ userOnSilver with current_membership := some tierGold } :
          User)).current_membership = some tierGold ∧
      ∀ r ∈ stSilver.history, r.created_at < row.created_at :=
  subscribe_ok_appends_single_ledger_row tierGold gwOk dToday stSilver
    ⟨{ userOnSilver with current_membership := some tierGold },
     [⟨3, "uuid-free", 0, none, none⟩,
      ⟨3, "uuid-gold", 1, some "sub_1", some "plan_gold"⟩], 2⟩
    (by decide) rfl

/-- C7 counterexample: on the Silver-to-Gold upgrade the run issues TWO
remote gateway calls (`stripe.Plan.list` and `stripe.Subscription.create`),
and both happen inside the transaction opened on entry by the
`@transaction.atomic` decorator — so "at most one remote call, with no
database transaction held open across it" is false on this input. -/
theorem subscribe_single_remote_call_cex :
    ¬(remoteCount (tierGold.subscribe gwOk dToday stSilver).2 ≤ 1 ∧
      txOpenDuringRemote (tierGold.subscribe gwOk dToday stSilver).2 = false) := by
  intro h
  have h1 : remoteCount (tierGold.subscribe gwOk dToday stSilver).2 = 2 := rfl
  rw [h1] at h
  omega

/-- C7 amended: every `subscribe` run issues at most TWO remote gateway
calls (the plan listing, then the subscription creation), every remote call
happens strictly before the transactional commit, and whenever a remote
call occurs the database transaction opened by the `@transaction.atomic`
decorator is held open across it. -/
theorem subscribe_remote_call_ordering :
    ∀ (m : Membership) (gw : Gateway) (today : Date) (st : DBState),
      remoteCount (m.subscribe gw today st).2 ≤ 2 ∧
      remoteAfterCommit (m.subscribe gw today st).2 = false ∧
      (1 ≤ remoteCount (m.subscribe gw today st).2 →
        txOpenDuringRemote (m.subscribe gw today st).2 = true) := by
  intro m gw today st
  rcases hd : m.is_downgrade st.user with _ | b
  · simp [Membership.subscribe, hd, remoteCount, Event.isRemote,
      remoteAfterCommit, remoteAfterCommitAux,
      txOpenDuringRemote, txOpenDuringRemoteAux]
  · cases b
    · by_cases hini : m.is_initial = true
      · simp [Membership.subscribe, hd, hini, remoteCount, Event.isRemote,
          remoteAfterCommit, remoteAfterCommitAux,
          txOpenDuringRemote, txOpenDuringRemoteAux]
      · by_cases hpl : gw.plan_list_ok = true
        · rcases hp : m.get_stripe_plan gw.plans with _ | p
          · simp [Membership.subscribe, hd, hini, hpl, hp, remoteCount,
              Event.isRemote, remoteAfterCommit, remoteAfterCommitAux,
              txOpenDuringRemote, txOpenDuringRemoteAux]
          · rcases hc : gw.create_result with msg | sub <;>
              simp [Membership.subscribe, hd, hini, hpl, hp,
                User.stripe_subscribe, hc, remoteCount, Event.isRemote,
                remoteAfterCommit, remoteAfterCommitAux,
                txOpenDuringRemote, txOpenDuringRemoteAux]
        · simp [Membership.subscribe, hd, hini, hpl, remoteCount,
            Event.isRemote, remoteAfterCommit, remoteAfterCommitAux,
            txOpenDuringRemote, txOpenDuringRemoteAux]
    · simp [Membership.subscribe, hd, remoteCount, Event.isRemote,
        remoteAfterCommit, remoteAfterCommitAux,
        txOpenDuringRemote, txOpenDuringRemoteAux]

/-- C7 amended witness: the Silver-to-Gold upgrade run, where remote calls
do occur and the transaction is open across them. -/
theorem subscribe_remote_call_ordering_witness :
    remoteCount (tierGold.subscribe gwOk dToday stSilver).2 ≤ 2 ∧
    remoteAfterCommit (tierGold.subscribe gwOk dToday stSilver).2 = false ∧
    txOpenDuringRemote (tierGold.subscribe gwOk dToday stSilver).2 = true :=
  ⟨(subscribe_remote_call_ordering tierGold gwOk dToday stSilver).1,
   (subscribe_remote_call_ordering tierGold gwOk dToday stSilver).2.1,
   (subscribe_remote_call_ordering tierGold gwOk dToday stSilver).2.2
     (by decide)⟩

/-- C3: on the Silver-to-Gold upgrade, `subscribe` resolves the plan by
name from the gateway's plan list and records the remote subscription id in
the ledger, but the `stripe.Subscription.create` request is sent WITHOUT
metadata: `User.stripe_subscribe` accepts the
`{"object_type": "membership", "uuid": ...}` dictionary that `subscribe`
passes, yet never forwards it to the gateway, so the remote call carries
`none` where the claim requires the membership tag. -/
theorem subscribe_drops_subscription_metadata :
    (tierGold.subscribe gwOk dToday stSilver).2 =
      [Event.txBegin, Event.remoteCall GatewayCall.planList,
       Event.remoteCall
         (GatewayCall.subscriptionCreate "cus_3" "plan_gold" none),
       Event.userSave, Event.historyInsert, Event.txCommit] ∧
    (tierGold.subscribe gwOk dToday stSilver).1 =
      Except.ok
        ⟨{ userOnSilver with current_membership := some tierGold },
         [⟨3, "uuid-free", 0, none, none⟩,
          ⟨3, "uuid-gold", 1, some "sub_1", some "plan_gold"⟩], 2⟩ :=
  ⟨rfl, rfl⟩

end Api
